import Mathlib

/-!
Shallow embedding of the tool functions of `src/personal_assistant/tools.py`
(the only executable core of the repository): `_resolve_location`,
`fetch_weather_summary` and `fetch_safety_brief`.

Modelling conventions:
* HTTP transport is abstracted away: each function takes the already-decoded
  upstream payload (or, for the RSS feed, the raw body together with a parse
  oracle standing for `xml.etree.ElementTree.fromstring` + `findall`).
* JSON numbers are modelled as rationals (`JNum`); the code never computes
  with them, it only copies them.
* Python exceptions are modelled with `Except PyErr`; `ValueError`,
  `IndexError` and XML parse errors are the only exceptions the modelled
  code raises itself.
* `datetime.fromisoformat` plus UTC normalization is abstracted as a
  parameter `toUtc : String -> Int` giving the UTC instant (epoch seconds)
  of a timestamp string; `now` is the call time in the same scale and
  `timedelta(hours=24)` is 86400 seconds.
* A Python `dict.get(key, default)` over an optional JSON member is
  `Option.getD`; absent object members are `none`.
-/

abbrev JNum := Rat

/-- Python exception kinds raised (directly or via list indexing) by the
modelled code, with the message where the code builds one. -/
inductive PyErr where
  | valueError (msg : String)
  | indexError
  | parseError (msg : String)
deriving Repr, DecidableEq

/-- Python `xs[i]` on a list: the element, or an `IndexError`. -/
def pyGet {α : Type} (xs : List α) (i : Nat) : Except PyErr α :=
  match xs.get? i with
  | some v => .ok v
  | none => .error .indexError

/-- Python `xs[:m]` for an arbitrary (possibly negative) integer `m`. -/
def pySlice {α : Type} (xs : List α) (m : Int) : List α :=
  if 0 ≤ m then xs.take m.toNat
  else xs.take ((xs.length : Int) + m).toNat

/-- Accumulator pass behind `pySplit`: collect maximal runs of
non-whitespace characters. -/
def pySplitGo : List Char → List Char → List String
  | acc, [] => if acc.isEmpty then [] else [String.mk acc.reverse]
  | acc, c :: cs =>
    if c.isWhitespace then
      if acc.isEmpty then pySplitGo [] cs
      else String.mk acc.reverse :: pySplitGo [] cs
    else pySplitGo (c :: acc) cs

/-- Whitespace word-splitting, as Python `str.split()` (runs of whitespace
separate words, no empty chunks). -/
def pySplit (s : String) : List String :=
  pySplitGo [] s.data

/-- Python `str.strip()`: drop leading and trailing whitespace. -/
def pyStrip (s : String) : String :=
  String.mk (((s.data.dropWhile Char.isWhitespace).reverse.dropWhile
    Char.isWhitespace).reverse)

/-- Leftmost, non-overlapping replacement of a (nonempty) pattern in a
character list, as Python `str.replace` performs it; `fuel` bounds the
number of steps (structural recursion so that the kernel can evaluate it;
with `fuel` at least the length of the text the bound is never hit, as
each step consumes at least one character). -/
def pyReplaceGo (pat rep : List Char) : Nat → List Char → List Char
  | 0, s => s
  | fuel + 1, s =>
    match s with
    | [] => []
    | c :: cs =>
      if pat.isPrefixOf s && !pat.isEmpty then
        rep ++ pyReplaceGo pat rep fuel (s.drop pat.length)
      else c :: pyReplaceGo pat rep fuel cs

/-- Python `s.replace(pattern, replacement)` for a nonempty pattern. -/
def pyReplace (s pattern replacement : String) : String :=
  String.mk (pyReplaceGo pattern.data replacement.data s.data.length s.data)

/-- The placeholder insertion of `textwrap.shorten`, on the reversed word
list: drop words from the end (the head of the reversed list) until the
joined words plus the placeholder " [...]" fit in `width`; with no word
left, the stripped placeholder alone is returned. -/
def shortenRevAux (width : Nat) : List String → String
  | [] => "[...]"
  | w :: rest =>
    let s := String.intercalate " " (w :: rest).reverse
    if s.length + 6 ≤ width then s ++ " [...]"
    else shortenRevAux width rest

/-- Model of `textwrap.shorten(text, width=width)` with default settings, at
word granularity: whitespace is collapsed; if the collapsed text fits it is
returned whole, otherwise whole words are dropped from the end and the
placeholder " [...]" appended. (The hyphen-aware chunk splitting of
`textwrap` is not modelled; it only moves where a truncation cuts, never
past `width`.) -/
def shorten (width : Nat) (text : String) : String :=
  let ws := pySplit text
  let s := String.intercalate " " ws
  if s.length ≤ width then s else shortenRevAux width ws.reverse

/-- One geocoding result object of the geocoding endpoint payload
(`name` / `admin1` / `country` may be absent; `latitude` / `longitude` are
read unconditionally by the code). -/
structure GeoResult where
  name : Option String := none
  admin1 : Option String := none
  country : Option String := none
  latitude : JNum := 0
  longitude : JNum := 0
deriving Repr, DecidableEq

/-- Payload of the geocoding endpoint: `payload.get("results") or []`
collapses an absent, null or empty member to the empty list. -/
structure GeocodePayload where
  results : Option (List GeoResult) := none
deriving Repr, DecidableEq

/-- Display-name construction of `_resolve_location` (tools.py:65-73): join
the truthy parts of (name, admin1, country) with ", ". -/
def resolved_display_name (top_hit : GeoResult) : String :=
  String.intercalate ", "
    (([top_hit.name, top_hit.admin1, top_hit.country].filterMap id).filter
      (fun part => ¬ part = ""))

/-- Embedding of `_resolve_location` (tools.py:46-76). The HTTP GET is
abstracted: `payload` is the decoded JSON body of the geocoding response.
Note the function itself performs no emptiness check on `location`; its
callers do. -/
def _resolve_location (location : String) (payload : GeocodePayload) :
    Except PyErr (JNum × JNum × String) :=
  match payload.results.getD [] with
  | [] => .error (.valueError ("Unable to geocode location '" ++ location ++ "'."))
  | top_hit :: _ =>
    .ok (top_hit.latitude, top_hit.longitude, resolved_display_name top_hit)

/-- The `current_weather` object of the forecast payload. -/
structure CurrentPayload where
  temperature : Option JNum := none
  windspeed : Option JNum := none
  weathercode : Option JNum := none
  time : Option String := none
deriving Repr, DecidableEq

/-- The `daily` object of the forecast payload: parallel arrays, each
optionally absent, whose entries may be null. -/
structure DailyPayload where
  time : List String := []
  temperature_2m_max : Option (List (Option JNum)) := none
  temperature_2m_min : Option (List (Option JNum)) := none
  precipitation_probability_max : Option (List (Option JNum)) := none
  precipitation_sum : Option (List (Option JNum)) := none
  uv_index_max : Option (List (Option JNum)) := none
  wind_speed_10m_max : Option (List (Option JNum)) := none
  sunrise : Option (List (Option String)) := none
  sunset : Option (List (Option String)) := none
deriving Repr, DecidableEq

/-- The `hourly` object of the forecast payload. -/
structure HourlyPayload where
  time : List String := []
  temperature_2m : Option (List (Option JNum)) := none
  precipitation_probability : Option (List (Option JNum)) := none
  relativehumidity_2m : Option (List (Option JNum)) := none
  weathercode : Option (List (Option JNum)) := none
deriving Repr, DecidableEq

/-- The forecast endpoint payload; an absent member is `none` (the code
defaults an absent or null member to the empty object where it reads one,
and tests presence with `"hourly" in payload`). -/
structure ForecastPayload where
  current_weather : Option CurrentPayload := none
  daily : Option DailyPayload := none
  hourly : Option HourlyPayload := none
deriving Repr, DecidableEq

/-- The nested `summary` record of one daily forecast entry (tools.py:135-148). -/
structure DailySummary where
  max_temp_c : Option JNum := none
  min_temp_c : Option JNum := none
  precip_probability : Option JNum := none
  precipitation_total_mm : Option JNum := none
  uv_index_max : Option JNum := none
  wind_speed_max_kmh : Option JNum := none
deriving Repr, DecidableEq

/-- One entry of `daily_forecast` (tools.py:132-152). -/
structure DailyEntry where
  date : String := ""
  summary : DailySummary := {}
  sunrise : Option String := none
  sunset : Option String := none
deriving Repr, DecidableEq

/-- One entry of `hourly_outlook` (tools.py:183-195). -/
structure HourlyEntry where
  time : String := ""
  temperature_c : Option JNum := none
  precip_probability : Option JNum := none
  relative_humidity : Option JNum := none
  weather_code : Option JNum := none
deriving Repr, DecidableEq

/-- The `current_conditions` record of a weather summary (tools.py:158-163). -/
structure CurrentConditions where
  temperature_c : Option JNum := none
  windspeed_kmh : Option JNum := none
  weather_code : Option JNum := none
  observation_time : Option String := none
deriving Repr, DecidableEq

/-- The `WeatherSummary` return value; `hourly_outlook = none` models the
member being absent from the returned dict (the code only ever sets it to
an actual list, never to null). -/
structure WeatherSummary where
  location : String := ""
  latitude : JNum := 0
  longitude : JNum := 0
  current_conditions : CurrentConditions := {}
  daily_forecast : List DailyEntry := []
  source : String := ""
  hourly_outlook : Option (List HourlyEntry) := none
deriving Repr, DecidableEq

/-- The nine indexed reads of one `daily_forecast` entry at index `idx`
(tools.py:132-152), performed jointly: `none` when any of the
`daily.get(key, [None])[idx]` reads is out of range. -/
def buildDailyEntry? (daily : DailyPayload) (idx : Nat) : Option DailyEntry :=
  match daily.time.get? idx,
        (daily.temperature_2m_max.getD [none]).get? idx,
        (daily.temperature_2m_min.getD [none]).get? idx,
        (daily.precipitation_probability_max.getD [none]).get? idx,
        (daily.precipitation_sum.getD [none]).get? idx,
        (daily.uv_index_max.getD [none]).get? idx,
        (daily.wind_speed_10m_max.getD [none]).get? idx,
        (daily.sunrise.getD [none]).get? idx,
        (daily.sunset.getD [none]).get? idx with
  | some date, some mx, some mn, some pp, some ps, some uv, some ws, some sr, some ss =>
    some { date := date,
           summary := { max_temp_c := mx, min_temp_c := mn, precip_probability := pp,
                        precipitation_total_mm := ps, uv_index_max := uv,
                        wind_speed_max_kmh := ws },
           sunrise := sr, sunset := ss }
  | _, _, _, _, _, _, _, _, _ => none

/-- Building one `daily_forecast` entry (tools.py:132-152). In the source
the reads happen left to right and the first out-of-range one raises; as
every such failure is the same `IndexError`, the reads are modelled
jointly by `buildDailyEntry?`. -/
def buildDailyEntry (daily : DailyPayload) (idx : Nat) : Except PyErr DailyEntry :=
  match buildDailyEntry? daily idx with
  | some e => .ok e
  | none => .error .indexError

/-- The `for idx in range(days_available)` accumulation (tools.py:131-152),
as structural recursion over the index list; an `IndexError` in an entry
aborts the whole loop, as the uncaught Python exception would. -/
def dailyLoop (daily : DailyPayload) : List Nat → Except PyErr (List DailyEntry)
  | [] => .ok []
  | idx :: rest =>
    match buildDailyEntry daily idx with
    | .error er => .error er
    | .ok e =>
      match dailyLoop daily rest with
      | .error er => .error er
      | .ok tail => .ok (e :: tail)

/-- `days_available = min(days, len(daily.get("time", [])))` followed by the
entry-building loop (tools.py:128-152); Python `range` of a non-positive
bound is empty, hence the `Int.toNat`. -/
def buildDailyForecast (daily : DailyPayload) (days : Int) : Except PyErr (List DailyEntry) :=
  dailyLoop daily (List.range (min days (daily.time.length : Int)).toNat)

/-- The four indexed reads of one `hourly_outlook` entry for original index
`idx` and raw timestamp string `time_str` (tools.py:183-195), performed
jointly (every out-of-range read is the same `IndexError`). -/
def buildHourlyEntry? (h : HourlyPayload) (idx : Nat) (time_str : String) :
    Option HourlyEntry :=
  match (h.temperature_2m.getD [none]).get? idx,
        (h.precipitation_probability.getD [none]).get? idx,
        (h.relativehumidity_2m.getD [none]).get? idx,
        (h.weathercode.getD [none]).get? idx with
  | some t, some pp, some rh, some wc =>
    some { time := time_str, temperature_c := t, precip_probability := pp,
           relative_humidity := rh, weather_code := wc }
  | _, _, _, _ => none

/-- Building one `hourly_outlook` entry (tools.py:183-195). -/
def buildHourlyEntry (h : HourlyPayload) (idx : Nat) (time_str : String) :
    Except PyErr HourlyEntry :=
  match buildHourlyEntry? h idx time_str with
  | some e => .ok e
  | none => .error .indexError

/-- The `for idx, time_str in enumerate(base_times)` loop (tools.py:173-195):
entries before `now` are skipped (`continue`), the first entry strictly
after `now + 24h` stops the loop (`break`), everything else is appended. -/
def hourlyLoop (h : HourlyPayload) (toUtc : String → Int) (now : Int) :
    Nat → List String → Except PyErr (List HourlyEntry)
  | _, [] => .ok []
  | idx, time_str :: rest =>
    let timestamp := toUtc time_str
    if timestamp < now then hourlyLoop h toUtc now (idx + 1) rest
    else if now + 86400 < timestamp then .ok []
    else
      match buildHourlyEntry h idx time_str with
      | .error er => .error er
      | .ok e =>
        match hourlyLoop h toUtc now (idx + 1) rest with
        | .error er => .error er
        | .ok tail => .ok (e :: tail)

/-- The summary record assembled at tools.py:154-166 (before the optional
hourly block is attached). -/
def baseSummary (lat lon : JNum) (resolved_name : String) (current : CurrentPayload)
    (daily_forecast : List DailyEntry) : WeatherSummary :=
  { location := resolved_name, latitude := lat, longitude := lon,
    current_conditions := { temperature_c := current.temperature,
                            windspeed_kmh := current.windspeed,
                            weather_code := current.weathercode,
                            observation_time := current.time },
    daily_forecast := daily_forecast,
    source := "Open-Meteo (https://open-meteo.com)",
    hourly_outlook := none }

/-- Embedding of `fetch_weather_summary` (tools.py:79-198). `geocode` and
`forecast` are the decoded bodies of the two upstream responses, `toUtc`
abstracts ISO-8601 parsing plus UTC normalization and `now` is the call
time; transport failures are outside the model. -/
def fetch_weather_summary (location : String) (days : Int) (include_hourly : Bool)
    (geocode : GeocodePayload) (forecast : ForecastPayload)
    (toUtc : String → Int) (now : Int) : Except PyErr WeatherSummary :=
  if pyStrip location = "" then .error (.valueError "location is required")
  else
    match _resolve_location location geocode with
    | .error er => .error er
    | .ok r =>
      let current := forecast.current_weather.getD {}
      let daily := forecast.daily.getD {}
      match buildDailyForecast daily days with
      | .error er => .error er
      | .ok daily_forecast =>
        let summary := baseSummary r.1 r.2.1 r.2.2 current daily_forecast
        match include_hourly, forecast.hourly with
        | true, some hourly_data =>
          match hourlyLoop hourly_data toUtc now 0 hourly_data.time with
          | .error er => .error er
          | .ok next_24_hours => .ok { summary with hourly_outlook := some next_24_hours }
        | _, _ => .ok summary

/-- One parsed `item` element of the RSS feed: `findtext` yields `none` when
the child element is missing. -/
structure RssItem where
  title : Option String := none
  link : Option String := none
  pubDate : Option String := none
  description : Option String := none
deriving Repr, DecidableEq

/-- One returned headline (the `SafetyHeadline` TypedDict). -/
structure SafetyHeadline where
  title : String := ""
  link : String := ""
  published : String := ""
  snippet : String := ""
deriving Repr, DecidableEq

/-- The `SafetyBrief` return value. -/
structure SafetyBrief where
  location : String := ""
  headlines : List SafetyHeadline := []
  source : String := ""
deriving Repr, DecidableEq

/-- The per-item body of the feed loop (tools.py:238-254): strip the four
texts, collapse "<br>" and newlines in the description, shorten it to 240
characters, and drop the item when the stripped title or link is empty. -/
def mkHeadline (item : RssItem) : Option SafetyHeadline :=
  let title := pyStrip (item.title.getD "")
  let link := pyStrip (item.link.getD "")
  let pub_date := pyStrip (item.pubDate.getD "")
  let description := pyStrip (item.description.getD "")
  let snippet := shorten 240 (pyReplace (pyReplace description "<br>" " ") "\n" " ")
  if title = "" ∨ link = "" then none
  else some { title := title, link := link, published := pub_date, snippet := snippet }

/-- Query parameters built at tools.py:217-223. -/
def newsRequestParams (location language : String) : List (String × String) :=
  [("q", location ++ " travel warning OR safety advisory OR disruption OR protest"),
   ("hl", language),
   ("gl", (language.splitOn "-").getLastD language),
   ("ceid", language.replace "-" ":")]

/-- Embedding of `fetch_safety_brief` (tools.py:201-268). The HTTP GET is
abstracted: `body` is the decoded response text and `parse` stands for
`xml.etree.ElementTree.fromstring` followed by `findall(".//item")` in
document order (an `Except.error` is a parse exception). The second
component of the result is the warning log emitted during the call. -/
def fetch_safety_brief (location : String) (max_items : Int) (language : String)
    (parse : String → Except String (List RssItem)) (body : String) :
    Except PyErr SafetyBrief × List String :=
  if pyStrip location = "" then (.error (.valueError "location is required"), [])
  else
    let _params := newsRequestParams location language
    match parse body with
    | .error msg =>
      (.error (.parseError msg),
       ["Failed to parse safety brief for " ++ location ++ ": " ++ msg])
    | .ok items =>
      let headlines := (pySlice items max_items).filterMap mkHeadline
      if headlines.isEmpty then
        (.error (.valueError
          ("Unable to find recent safety headlines for '" ++ location ++ "'.")), [])
      else
        (.ok { location := location, headlines := headlines,
               source := "Google News RSS" }, [])


/-! ### Helper lemmas -/

theorem shortenRevAux_length_le (width : Nat) (h5 : 5 ≤ width) :
    ∀ rws : List String, (shortenRevAux width rws).length ≤ width := by
  intro rws
  induction rws with
  | nil =>
    rw [shortenRevAux]
    simpa using h5
  | cons w rest ih =>
    rw [shortenRevAux]
    split
    · rename_i hfit
      rw [String.length_append]
      have h6 : (" [...]" : String).length = 6 := by decide
      omega
    · exact ih

theorem shorten_length_le (width : Nat) (h5 : 5 ≤ width) (text : String) :
    (shorten width text).length ≤ width := by
  rw [shorten]
  split
  · assumption
  · exact shortenRevAux_length_le width h5 _

theorem mkHeadline_some (item : RssItem) (hl : SafetyHeadline)
    (hm : mkHeadline item = some hl) :
    ¬ hl.title = "" ∧ ¬ hl.link = "" ∧ hl.snippet.length ≤ 240 := by
  simp only [mkHeadline] at hm
  split at hm
  · exact absurd hm (by simp)
  · rename_i hcond
    push_neg at hcond
    cases hm
    exact ⟨hcond.1, hcond.2, shorten_length_le 240 (by norm_num) _⟩

theorem fetch_safety_brief_ok (location : String) (max_items : Int) (language : String)
    (parse : String → Except String (List RssItem)) (body : String) (brief : SafetyBrief)
    (hs : (fetch_safety_brief location max_items language parse body).1 = .ok brief) :
    ∃ items, parse body = .ok items
      ∧ brief.headlines = (pySlice items max_items).filterMap mkHeadline
      ∧ ¬ brief.headlines = []
      ∧ brief.location = location ∧ brief.source = "Google News RSS" := by
  unfold fetch_safety_brief at hs
  by_cases hloc : pyStrip location = ""
  · rw [if_pos hloc] at hs
    cases hs
  · rw [if_neg hloc] at hs
    cases hp : parse body with
    | error msg =>
      rw [hp] at hs
      cases hs
    | ok items =>
      rw [hp] at hs
      simp only [] at hs
      split at hs
      · cases hs
      · rename_i hne
        cases hs
        refine ⟨items, rfl, rfl, ?_, rfl, rfl⟩
        simpa [List.isEmpty_iff] using hne

/-- Claim C6: every headline returned by `fetch_safety_brief` has a snippet
of at most 240 characters, whatever the length of the input description
(the snippet is the stripped description with "<br>" and newlines
collapsed, shortened to 240 characters with an ellipsis placeholder). -/
theorem snippet_length_le_240 (location : String) (max_items : Int) (language : String)
    (parse : String → Except String (List RssItem)) (body : String) (brief : SafetyBrief)
    (hs : (fetch_safety_brief location max_items language parse body).1 = .ok brief)
    (hl : SafetyHeadline) (hmem : hl ∈ brief.headlines) :
    hl.snippet.length ≤ 240 := by
  obtain ⟨items, -, hH, -, -, -⟩ :=
    fetch_safety_brief_ok location max_items language parse body brief hs
  rw [hH] at hmem
  obtain ⟨item, -, hitem⟩ := List.mem_filterMap.mp hmem
  exact (mkHeadline_some item hl hitem).2.2

def witParseOne : String → Except String (List RssItem) :=
  fun _ => .ok [{ title := some "Protest closes main square",
                  link := some "https://example.org/a",
                  pubDate := some "Mon", description := some "Long description" }]

def witHeadline : SafetyHeadline :=
  { title := "Protest closes main square", link := "https://example.org/a",
    published := "Mon", snippet := "Long description" }

def witBrief : SafetyBrief :=
  { location := "Jaipur", headlines := [witHeadline], source := "Google News RSS" }

/-- Witness for C6 at a concrete feed. -/
theorem snippet_length_le_240_wit : witHeadline.snippet.length ≤ 240 :=
  snippet_length_le_240 "Jaipur" 4 "en-US" witParseOne "feed" witBrief (by rfl)
    witHeadline (List.Mem.head _)

/-- Claim C7: a location string that is blank after stripping is rejected
with the `ValueError("location is required")` guard before the location is
resolved; the result does not depend on the geocoding response at all. -/
theorem fetch_weather_summary_blank_location_invalid_argument (location : String)
    (hloc : pyStrip location = "") (days : Int) (include_hourly : Bool)
    (geocode : GeocodePayload) (forecast : ForecastPayload)
    (toUtc : String → Int) (now : Int) :
    fetch_weather_summary location days include_hourly geocode forecast toUtc now
      = .error (.valueError "location is required") := by
  unfold fetch_weather_summary
  rw [if_pos hloc]

/-- Witness for C7 at the empty string. -/
theorem fetch_weather_summary_blank_location_invalid_argument_wit :
    fetch_weather_summary "" 5 false {} {} (fun _ => 0) 0
      = .error (.valueError "location is required") :=
  fetch_weather_summary_blank_location_invalid_argument "" (by rfl) 5 false {} {}
    (fun _ => 0) 0

/-- Claim C8: when feed parsing fails, `fetch_safety_brief` logs a warning
naming the offending location and re-raises the parse failure; it is not
swallowed and not turned into an empty brief. -/
theorem fetch_safety_brief_parse_error_logged_reraised (location : String)
    (max_items : Int) (language : String)
    (parse : String → Except String (List RssItem)) (body msg : String)
    (hloc : ¬ pyStrip location = "") (hp : parse body = .error msg) :
    fetch_safety_brief location max_items language parse body
      = (.error (.parseError msg),
         ["Failed to parse safety brief for " ++ location ++ ": " ++ msg]) := by
  unfold fetch_safety_brief
  rw [if_neg hloc, hp]

def witParseFail : String → Except String (List RssItem) :=
  fun _ => .error "not well-formed (invalid token)"

/-- Witness for C8 at a concrete malformed feed. -/
theorem fetch_safety_brief_parse_error_logged_reraised_wit :
    fetch_safety_brief "Jaipur" 4 "en-US" witParseFail "<rss><item>"
      = (.error (.parseError "not well-formed (invalid token)"),
         ["Failed to parse safety brief for " ++ "Jaipur" ++ ": "
           ++ "not well-formed (invalid token)"]) :=
  fetch_safety_brief_parse_error_logged_reraised "Jaipur" 4 "en-US" witParseFail
    "<rss><item>" "not well-formed (invalid token)" (by decide) rfl

theorem buildDailyEntry_ok_date (daily : DailyPayload) (idx : Nat) (e : DailyEntry)
    (hE : buildDailyEntry daily idx = .ok e) : daily.time.get? idx = some e.date := by
  unfold buildDailyEntry at hE
  split at hE
  · rename_i e' he'
    cases hE
    unfold buildDailyEntry? at he'
    split at he'
    · rename_i hdate hmx hmn hpp hps huv hws hsr hss
      cases he'
      simpa using hdate
    · cases he'
  · cases hE

theorem dailyLoop_ok_dates (daily : DailyPayload) :
    ∀ (idxs : List Nat) (l : List DailyEntry), dailyLoop daily idxs = .ok l →
      l.map (fun e => some e.date) = idxs.map (fun idx => daily.time.get? idx) := by
  intro idxs
  induction idxs with
  | nil =>
    intro l hl
    rw [dailyLoop] at hl
    cases hl
    rfl
  | cons idx rest ih =>
    intro l hl
    rw [dailyLoop] at hl
    split at hl
    · cases hl
    · rename_i e hE
      split at hl
      · cases hl
      · rename_i tail htail
        cases hl
        simp only [List.map_cons]
        rw [ih tail htail, buildDailyEntry_ok_date daily idx e hE]

theorem range_map_get_eq_take_map_some {α : Type} (xs : List α) :
    ∀ n : Nat, n ≤ xs.length →
      (List.range n).map (fun i => xs.get? i) = (xs.take n).map some := by
  intro n
  induction n with
  | zero => intro _; rfl
  | succ n ih =>
    intro hn
    rw [List.range_succ, List.map_append, ih (Nat.le_of_succ_le hn), List.take_succ,
      List.map_append]
    have hlt : n < xs.length := hn
    simp [List.get?_eq_getElem?, List.getElem?_eq_getElem hlt]

theorem buildDailyForecast_ok (daily : DailyPayload) (days : Int) (l : List DailyEntry)
    (hl : buildDailyForecast daily days = .ok l) :
    l.length = (min days (daily.time.length : Int)).toNat
    ∧ l.map (fun e => e.date)
        = daily.time.take (min days (daily.time.length : Int)).toNat := by
  unfold buildDailyForecast at hl
  have hmap := dailyLoop_ok_dates daily _ l hl
  have hnle : (min days (daily.time.length : Int)).toNat ≤ daily.time.length := by
    have h1 : min days (daily.time.length : Int) ≤ (daily.time.length : Int) :=
      min_le_right _ _
    exact le_trans (Int.toNat_le_toNat h1) (le_of_eq (Int.toNat_ofNat _))
  rw [range_map_get_eq_take_map_some daily.time _ hnle] at hmap
  have hdates : l.map (fun e => e.date)
      = daily.time.take (min days (daily.time.length : Int)).toNat := by
    apply List.map_injective_iff.mpr (Option.some_injective _)
    rw [List.map_map]
    exact hmap
  refine ⟨?_, hdates⟩
  have hlen := congrArg List.length hdates
  simpa [List.length_take, Nat.min_eq_left hnle] using hlen

theorem buildHourlyEntry_ok_time (h : HourlyPayload) (idx : Nat) (time_str : String)
    (e : HourlyEntry) (hE : buildHourlyEntry h idx time_str = .ok e) :
    e.time = time_str := by
  unfold buildHourlyEntry at hE
  split at hE
  · rename_i e' he'
    cases hE
    unfold buildHourlyEntry? at he'
    split at he'
    · cases he'
      rfl
    · cases he'
  · cases hE

theorem hourlyLoop_ok_window (h : HourlyPayload) (toUtc : String → Int) (now : Int) :
    ∀ (ts : List String) (idx : Nat) (l : List HourlyEntry),
      hourlyLoop h toUtc now idx ts = .ok l →
      (∀ e ∈ l, now ≤ toUtc e.time ∧ toUtc e.time ≤ now + 86400)
      ∧ List.Sublist (l.map (fun e => e.time)) ts := by
  intro ts
  induction ts with
  | nil =>
    intro idx l hl
    rw [hourlyLoop] at hl
    cases hl
    exact ⟨by simp, by simp⟩
  | cons time_str rest ih =>
    intro idx l hl
    rw [hourlyLoop] at hl
    split at hl
    · obtain ⟨hw, hsub⟩ := ih (idx + 1) l hl
      exact ⟨hw, hsub.trans (List.sublist_cons_self _ _)⟩
    · split at hl
      · cases hl
        exact ⟨by simp, by simp⟩
      · rename_i hlt hgt
        split at hl
        · cases hl
        · rename_i e hE
          split at hl
          · cases hl
          · rename_i tail htail
            cases hl
            obtain ⟨hw, hsub⟩ := ih (idx + 1) tail htail
            have htime := buildHourlyEntry_ok_time h idx time_str e hE
            refine ⟨?_, ?_⟩
            · intro x hx
              rcases List.mem_cons.mp hx with hx | hx
              · subst hx
                rw [htime]
                omega
              · exact hw x hx
            · simp only [List.map_cons]
              rw [htime]
              exact List.Sublist.cons₂ _ hsub

theorem hourlyLoop_all_past (h : HourlyPayload) (toUtc : String → Int) (now : Int) :
    ∀ (ts : List String) (idx : Nat), (∀ t ∈ ts, toUtc t < now) →
      hourlyLoop h toUtc now idx ts = .ok [] := by
  intro ts
  induction ts with
  | nil => intro idx _; rw [hourlyLoop]
  | cons time_str rest ih =>
    intro idx hpast
    rw [hourlyLoop]
    rw [if_pos (hpast time_str (List.mem_cons_self _ _))]
    exact ih (idx + 1) (fun t ht => hpast t (List.mem_cons_of_mem _ ht))

theorem fetch_weather_summary_ok_inv (location : String) (days : Int)
    (include_hourly : Bool) (geocode : GeocodePayload) (forecast : ForecastPayload)
    (toUtc : String → Int) (now : Int) (s : WeatherSummary)
    (hs : fetch_weather_summary location days include_hourly geocode forecast toUtc now
            = .ok s) :
    ∃ r daily_forecast,
      ¬ pyStrip location = ""
      ∧ _resolve_location location geocode = .ok r
      ∧ buildDailyForecast (forecast.daily.getD {}) days = .ok daily_forecast
      ∧ ((∃ hourly_data next, include_hourly = true ∧ forecast.hourly = some hourly_data
            ∧ hourlyLoop hourly_data toUtc now 0 hourly_data.time = .ok next
            ∧ s = { baseSummary r.1 r.2.1 r.2.2 (forecast.current_weather.getD {})
                      daily_forecast with hourly_outlook := some next })
         ∨ ((include_hourly = false ∨ forecast.hourly = none)
            ∧ s = baseSummary r.1 r.2.1 r.2.2 (forecast.current_weather.getD {})
                    daily_forecast)) := by
  unfold fetch_weather_summary at hs
  split at hs
  · cases hs
  · rename_i hloc
    cases hres : _resolve_location location geocode with
    | error er => rw [hres] at hs; cases hs
    | ok r =>
      rw [hres] at hs
      dsimp only at hs
      cases hdf : buildDailyForecast (forecast.daily.getD {}) days with
      | error er => rw [hdf] at hs; cases hs
      | ok daily_forecast =>
        rw [hdf] at hs
        dsimp only at hs
        refine ⟨r, daily_forecast, hloc, rfl, rfl, ?_⟩
        cases hih : include_hourly with
        | false =>
          subst hih
          dsimp only at hs
          cases hs
          exact .inr ⟨.inl rfl, rfl⟩
        | true =>
          subst hih
          cases hhd : forecast.hourly with
          | none =>
            rw [hhd] at hs
            dsimp only at hs
            cases hs
            exact .inr ⟨.inr rfl, rfl⟩
          | some hourly_data =>
            rw [hhd] at hs
            dsimp only at hs
            cases hnext : hourlyLoop hourly_data toUtc now 0 hourly_data.time with
            | error er => rw [hnext] at hs; cases hs
            | ok next =>
              rw [hnext] at hs
              dsimp only at hs
              cases hs
              exact .inl ⟨hourly_data, next, rfl, rfl, hnext, rfl⟩

/-! ### Concrete fixtures -/

def cexTop : GeoResult :=
  { name := some "Jaipur", admin1 := some "Rajasthan", country := some "India",
    latitude := 26, longitude := 75 }

def cexGeo : GeocodePayload := { results := some [cexTop] }

def cexDailyTwoDays : DailyPayload := { time := ["2025-01-01", "2025-01-02"] }

/-- Claim C2: the code contradicts the never-raises claim. With a daily
payload whose `time` array has two entries but whose other field arrays are
absent, the defaulted `[None]` array is indexed at 1 and the build raises
`IndexError` instead of producing a null-valued entry. -/
theorem fetch_weather_summary_missing_daily_field_raises :
    buildDailyForecast cexDailyTwoDays 2 = .error .indexError
    ∧ fetch_weather_summary "Jaipur" 2 false cexGeo { daily := some cexDailyTwoDays }
        (fun _ => 0) 0 = .error .indexError :=
  ⟨rfl, rfl⟩

/-- Claim C9: a non-positive `days` is not rejected: provided the location
is non-blank and geocoding returns at least one hit, the call succeeds with
an empty `daily_forecast` and the remaining fields built as usual. -/
theorem fetch_weather_summary_nonpositive_days_empty_daily (location : String)
    (days : Int) (geocode : GeocodePayload) (forecast : ForecastPayload)
    (toUtc : String → Int) (now : Int) (top : GeoResult) (rest : List GeoResult)
    (hdays : days ≤ 0) (hloc : ¬ pyStrip location = "")
    (hres : geocode.results.getD [] = top :: rest) :
    fetch_weather_summary location days false geocode forecast toUtc now
      = .ok (baseSummary top.latitude top.longitude (resolved_display_name top)
              (forecast.current_weather.getD {}) []) := by
  unfold fetch_weather_summary
  rw [if_neg hloc]
  unfold _resolve_location
  rw [hres]
  dsimp only
  have hz : (min days (((forecast.daily.getD {}).time.length : Nat) : Int)).toNat = 0 :=
    Int.toNat_eq_zero.mpr (le_trans (min_le_left _ _) hdays)
  unfold buildDailyForecast
  rw [hz]
  dsimp only [List.range_zero, dailyLoop]

/-- Witness for C9 at days = 0 with a concrete geocode hit. -/
theorem fetch_weather_summary_nonpositive_days_empty_daily_wit :
    fetch_weather_summary "Jaipur" 0 false cexGeo {} (fun _ => 0) 0
      = .ok (baseSummary 26 75 "Jaipur, Rajasthan, India" {} []) :=
  fetch_weather_summary_nonpositive_days_empty_daily "Jaipur" 0 cexGeo {}
    (fun _ => 0) 0 cexTop [] (by decide) (by decide) rfl

def cexF4 : ForecastPayload := { daily := some { time := ["2025-01-01"] } }

def cexS0 : WeatherSummary := baseSummary 26 75 "Jaipur, Rajasthan, India" {} []

/-- Claim C4 counterexample: with days = -1 the call succeeds and returns an
empty daily_forecast of length 0, while min(days, upstream length) is -1;
the claimed exact equality fails for negative days. -/
theorem daily_forecast_negative_days_cex :
    fetch_weather_summary "Jaipur" (-1) false cexGeo cexF4 (fun _ => 0) 0
      = .ok cexS0
    ∧ ¬ ((cexS0.daily_forecast.length : Int)
          = min (-1) (((cexF4.daily.getD {}).time.length : Nat) : Int)) :=
  ⟨rfl, by decide⟩

/-- Claim C4 (amended): for every successful call the daily_forecast length
is min(days, upstream length) clamped below at 0 (the clamp only matters
for negative days, where Python range is empty), and the entry dates are
exactly the corresponding prefix of the upstream time array, in order. -/
theorem daily_forecast_length_min_clamped (location : String) (days : Int)
    (include_hourly : Bool) (geocode : GeocodePayload) (forecast : ForecastPayload)
    (toUtc : String → Int) (now : Int) (s : WeatherSummary)
    (hs : fetch_weather_summary location days include_hourly geocode forecast toUtc now
            = .ok s) :
    (s.daily_forecast.length : Int)
        = max (min days (((forecast.daily.getD {}).time.length : Nat) : Int)) 0
    ∧ s.daily_forecast.map (fun e => e.date)
        = (forecast.daily.getD {}).time.take s.daily_forecast.length := by
  obtain ⟨r, dl, hloc, hres, hdf, hcase⟩ :=
    fetch_weather_summary_ok_inv location days include_hourly geocode forecast
      toUtc now s hs
  have hsdl : s.daily_forecast = dl := by
    rcases hcase with ⟨hd, nx, -, -, -, hseq⟩ | ⟨-, hseq⟩ <;> rw [hseq] <;> rfl
  obtain ⟨hlen, hdates⟩ := buildDailyForecast_ok _ days dl hdf
  constructor
  · rw [hsdl, hlen]
    exact Int.toNat_eq_max _
  · rw [hsdl, hlen, hdates]

def cexS4 : WeatherSummary :=
  baseSummary 26 75 "Jaipur, Rajasthan, India" {} [{ date := "2025-01-01" }]

/-- Witness for C4 (amended) at a concrete one-day forecast with days = 5. -/
theorem daily_forecast_length_min_clamped_wit :
    ((cexS4.daily_forecast.length : Int)
        = max (min 5 (((cexF4.daily.getD {}).time.length : Nat) : Int)) 0)
    ∧ cexS4.daily_forecast.map (fun e => e.date)
        = (cexF4.daily.getD {}).time.take cexS4.daily_forecast.length :=
  daily_forecast_length_min_clamped "Jaipur" 5 false cexGeo cexF4 (fun _ => 0) 0
    cexS4 (by rfl)

def cexHourlyBoundary : HourlyPayload := { time := ["2025-01-02T00:00"] }

def cexFBoundary : ForecastPayload := { hourly := some cexHourlyBoundary }

def cexEntryBoundary : HourlyEntry := { time := "2025-01-02T00:00" }

def cexS3 : WeatherSummary :=
  { cexS0 with hourly_outlook := some [cexEntryBoundary] }

/-- Claim C3 counterexample: an hourly entry whose normalized timestamp is
exactly now + 24h is returned (the loop breaks only strictly beyond the
bound), although the claim requires t < now + 24h for every entry. -/
theorem hourly_outlook_boundary_cex :
    fetch_weather_summary "Jaipur" 5 true cexGeo cexFBoundary (fun _ => 86400) 0
      = .ok cexS3
    ∧ (fun _ : String => (86400 : Int)) cexEntryBoundary.time = 0 + 86400
    ∧ ¬ ((fun _ : String => (86400 : Int)) cexEntryBoundary.time < 0 + 86400) :=
  ⟨rfl, rfl, by decide⟩

/-- Claim C3 (amended): every entry of the returned hourly outlook has its
normalized timestamp t in the closed-above window now ≤ t ≤ now + 24h (the
boundary instant is included), and the entries preserve the upstream hourly
order (their timestamp strings form a sublist of the upstream time array). -/
theorem hourly_outlook_window_closed_upper_bound (location : String) (days : Int)
    (geocode : GeocodePayload) (forecast : ForecastPayload) (toUtc : String → Int)
    (now : Int) (s : WeatherSummary) (hourly_data : HourlyPayload)
    (hh : forecast.hourly = some hourly_data)
    (hs : fetch_weather_summary location days true geocode forecast toUtc now = .ok s) :
    (∀ e ∈ s.hourly_outlook.getD [], now ≤ toUtc e.time ∧ toUtc e.time ≤ now + 86400)
    ∧ List.Sublist ((s.hourly_outlook.getD []).map (fun e => e.time))
        hourly_data.time := by
  obtain ⟨r, dl, hloc, hres, hdf, hcase⟩ :=
    fetch_weather_summary_ok_inv location days true geocode forecast toUtc now s hs
  rcases hcase with ⟨hd, nx, -, hhd, hloop, hseq⟩ | ⟨hbad, -⟩
  · have hde : hd = hourly_data := by
      rw [hh] at hhd
      exact (Option.some.inj hhd).symm
    subst hde
    have houtlook : s.hourly_outlook = some nx := by rw [hseq]
    rw [houtlook]
    simpa using hourlyLoop_ok_window hd toUtc now hd.time 0 nx hloop
  · rcases hbad with h1 | h1
    · cases h1
    · rw [hh] at h1
      cases h1

/-- Witness for C3 (amended) at the concrete boundary feed. -/
theorem hourly_outlook_window_closed_upper_bound_wit :
    (0 : Int) ≤ (fun _ : String => (86400 : Int)) cexEntryBoundary.time
    ∧ (fun _ : String => (86400 : Int)) cexEntryBoundary.time ≤ 0 + 86400 :=
  (hourly_outlook_window_closed_upper_bound "Jaipur" 5 cexGeo cexFBoundary
      (fun _ => 86400) 0 cexS3 cexHourlyBoundary rfl (by rfl)).1
    cexEntryBoundary (List.Mem.head _)

/-- Claim C10: on a successful call, the hourly_outlook member is present
(some) exactly when hourly data was requested and the payload contains an
hourly object — otherwise the member is absent (none), never null — and
when present it may legitimately be the empty list: if every upstream
hourly timestamp is before now, the call still succeeds with an empty
outlook rather than failing. -/
theorem hourly_outlook_presence_iff (location : String) (days : Int)
    (include_hourly : Bool) (geocode : GeocodePayload) (forecast : ForecastPayload)
    (toUtc : String → Int) (now : Int) (s : WeatherSummary)
    (hs : fetch_weather_summary location days include_hourly geocode forecast toUtc now
            = .ok s) :
    (s.hourly_outlook.isSome = true ↔ (include_hourly = true ∧ forecast.hourly.isSome = true))
    ∧ (∀ hourly_data, include_hourly = true → forecast.hourly = some hourly_data →
        (∀ t ∈ hourly_data.time, toUtc t < now) → s.hourly_outlook = some []) := by
  obtain ⟨r, dl, hloc, hres, hdf, hcase⟩ :=
    fetch_weather_summary_ok_inv location days include_hourly geocode forecast
      toUtc now s hs
  rcases hcase with ⟨hd, nx, hih, hhd, hloop, hseq⟩ | ⟨hbad, hseq⟩
  · constructor
    · rw [hseq]
      simp [hih, hhd]
    · intro hd2 hih2 hhd2 hpast
      have hde : hd2 = hd := by
        rw [hhd] at hhd2
        exact (Option.some.inj hhd2).symm
      subst hde
      have h0 : hourlyLoop hd2 toUtc now 0 hd2.time = .ok [] :=
        hourlyLoop_all_past hd2 toUtc now hd2.time 0 hpast
      have hnx : nx = [] := by
        rw [hloop] at h0
        exact Except.ok.inj h0
      subst hnx
      rw [hseq]
  · constructor
    · rw [hseq]
      constructor
      · intro habs
        simp [baseSummary] at habs
      · rintro ⟨hih, hsome⟩
        rcases hbad with h1 | h1
        · rw [hih] at h1
          cases h1
        · rw [h1] at hsome
          simp at hsome
    · intro hd2 hih hhd2 _
      rcases hbad with h1 | h1
      · rw [hih] at h1
        cases h1
      · rw [h1] at hhd2
        cases hhd2

def cexHourlyPast : HourlyPayload := { time := ["2025-01-01T00:00"] }

def cexFPast : ForecastPayload := { hourly := some cexHourlyPast }

def cexS10 : WeatherSummary := { cexS0 with hourly_outlook := some [] }

/-- Witness for C10: requested hourly data whose timestamps all lie in the
past yields a successful call with an explicitly empty hourly outlook. -/
theorem hourly_outlook_presence_iff_wit : cexS10.hourly_outlook = some [] :=
  (hourly_outlook_presence_iff "Jaipur" 5 true cexGeo cexFPast
      (fun _ => -10) 0 cexS10 (by rfl)).2 cexHourlyPast rfl rfl
    (by intro t _; decide)

def cexItemsC1 : List RssItem :=
  [{ description := some "item with no title and no link" },
   { title := some "T1", link := some "L1" },
   { title := some "T2", link := some "L2" },
   { title := some "T3", link := some "L3" },
   { title := some "T4", link := some "L4" }]

def cexBriefC1 : SafetyBrief :=
  { location := "Jaipur",
    headlines := [{ title := "T1", link := "L1" }, { title := "T2", link := "L2" },
                  { title := "T3", link := "L3" }],
    source := "Google News RSS" }

/-- Claim C1 counterexample: the whole feed contains 4 qualifying items, yet
a call with maxItems = 4 returns only 3 headlines — the non-qualifying
first item consumed a slot of the [:max_items] slice taken before
filtering, so dropped items do count toward maxItems. -/
theorem fetch_safety_brief_dropped_items_counted_cex :
    (fetch_safety_brief "Jaipur" 4 "en-US" (fun _ => .ok cexItemsC1) "feed").1
      = .ok cexBriefC1
    ∧ cexBriefC1.headlines.length = 3
    ∧ (cexItemsC1.filterMap mkHeadline).length = 4 :=
  ⟨rfl, rfl, rfl⟩

/-- Claim C1 (amended): for maxItems ≥ 0 the returned headlines are the
qualifying items among the FIRST maxItems item elements of the feed, in
document order; an item lacking a non-empty title or link inside that
window is dropped but still counts toward maxItems. -/
theorem fetch_safety_brief_headlines_from_slice (location : String) (max_items : Int)
    (language : String) (parse : String → Except String (List RssItem)) (body : String)
    (items : List RssItem) (brief : SafetyBrief)
    (hm : 0 ≤ max_items) (hp : parse body = .ok items)
    (hs : (fetch_safety_brief location max_items language parse body).1 = .ok brief) :
    brief.headlines = (items.take max_items.toNat).filterMap mkHeadline := by
  obtain ⟨items2, hp2, hH, -, -, -⟩ :=
    fetch_safety_brief_ok location max_items language parse body brief hs
  rw [hp] at hp2
  cases hp2
  rw [hH]
  unfold pySlice
  rw [if_pos hm]

/-- Witness for C1 (amended) at the concrete five-item feed. -/
theorem fetch_safety_brief_headlines_from_slice_wit :
    cexBriefC1.headlines = (cexItemsC1.take 4).filterMap mkHeadline :=
  fetch_safety_brief_headlines_from_slice "Jaipur" 4 "en-US"
    (fun _ => .ok cexItemsC1) "feed" cexItemsC1 cexBriefC1 (by decide) rfl (by rfl)

def cexItemsC5 : List RssItem :=
  [{ title := some "T1", link := some "L1" },
   { title := some "T2", link := some "L2" },
   { title := some "T3", link := some "L3" }]

def cexBriefC5 : SafetyBrief :=
  { location := "Jaipur",
    headlines := [{ title := "T1", link := "L1" }, { title := "T2", link := "L2" }],
    source := "Google News RSS" }

/-- Claim C5 counterexample: with maxItems = -1 — Python slice semantics
keep all items but the last — the call returns 2 headlines; 2 is not
between 1 and maxItems = -1, so the claimed disjunction fails here. -/
theorem fetch_safety_brief_negative_max_items_cex :
    (fetch_safety_brief "Jaipur" (-1) "en-US" (fun _ => .ok cexItemsC5) "feed").1
      = .ok cexBriefC5
    ∧ ¬ ((cexBriefC5.headlines.length : Int) ≤ -1) :=
  ⟨rfl, by decide⟩

/-- Claim C5 (amended): for a parsed feed and maxItems ≥ 0 the call either
fails with a ValueError (in particular, zero qualifying headlines after
slicing and filtering is a failure, not an empty brief) or returns between
1 and maxItems headlines, each with non-empty title and link, in feed
order. -/
theorem fetch_safety_brief_nonempty_or_failure (location : String) (max_items : Int)
    (language : String) (parse : String → Except String (List RssItem)) (body : String)
    (items : List RssItem) (hm : 0 ≤ max_items) (hp : parse body = .ok items) :
    ((pySlice items max_items).filterMap mkHeadline = [] →
      ∃ msg, (fetch_safety_brief location max_items language parse body).1
        = .error (.valueError msg))
    ∧ (∀ brief,
        (fetch_safety_brief location max_items language parse body).1 = .ok brief →
        1 ≤ brief.headlines.length
        ∧ (brief.headlines.length : Int) ≤ max_items
        ∧ (∀ hl ∈ brief.headlines, ¬ hl.title = "" ∧ ¬ hl.link = "")
        ∧ List.Sublist brief.headlines (items.filterMap mkHeadline)) := by
  constructor
  · intro hempty
    unfold fetch_safety_brief
    by_cases hloc : pyStrip location = ""
    · rw [if_pos hloc]
      exact ⟨"location is required", rfl⟩
    · rw [if_neg hloc, hp]
      dsimp only
      rw [hempty]
      exact ⟨_, rfl⟩
  · intro brief hok
    obtain ⟨items2, hp2, hH, hne, -, -⟩ :=
      fetch_safety_brief_ok location max_items language parse body brief hok
    rw [hp] at hp2
    cases hp2
    refine ⟨?_, ?_, ?_, ?_⟩
    · exact Nat.succ_le_of_lt (List.length_pos.mpr hne)
    · rw [hH]
      have h1 : ((pySlice items max_items).filterMap mkHeadline).length
          ≤ (pySlice items max_items).length := List.length_filterMap_le _ _
      have h2 : (pySlice items max_items).length ≤ max_items.toNat := by
        unfold pySlice
        rw [if_pos hm]
        rw [List.length_take]
        exact Nat.min_le_left _ _
      have h3 : (max_items.toNat : Int) = max_items := Int.toNat_of_nonneg hm
      omega
    · intro hl hmem
      rw [hH] at hmem
      obtain ⟨item, -, hitem⟩ := List.mem_filterMap.mp hmem
      have hq := mkHeadline_some item hl hitem
      exact ⟨hq.1, hq.2.1⟩
    · rw [hH]
      have hsub : List.Sublist (pySlice items max_items) items := by
        unfold pySlice
        split <;> exact List.take_sublist _ _
      exact hsub.filterMap _

/-- Witness for C5 (amended) at a concrete three-item feed with max 4. -/
theorem fetch_safety_brief_nonempty_or_failure_wit :
    1 ≤ cexBriefC1.headlines.length ∧ (cexBriefC1.headlines.length : Int) ≤ 4 :=
  ⟨((fetch_safety_brief_nonempty_or_failure "Jaipur" 4 "en-US"
      (fun _ => .ok cexItemsC1) "feed" cexItemsC1 (by decide) rfl).2
        cexBriefC1 (by rfl)).1,
   ((fetch_safety_brief_nonempty_or_failure "Jaipur" 4 "en-US"
      (fun _ => .ok cexItemsC1) "feed" cexItemsC1 (by decide) rfl).2
        cexBriefC1 (by rfl)).2.1⟩
